import Mathlib

/-!
Verification of the PRR formula system (Neptune12965/PRR-formula-system-).

The repository's engineering content is the Python PRR-Engine embedded in
src/App.tsx: the B4 truth-value tables (NEGATION_TABLE, CONJUNCTION_TABLE),
the information-lattice join (join_info_lattice), the hardcoded Liar-sentence
fixed-point loop (solve_liar_fixed_point), and the confidence-interval
formula C(v) displayed by the MathFormula component.  This file embeds those
pieces as Lean definitions and settles the claims about them.
-/

/-- The B4 truth values of src/App.tsx: T = "True", F = "False", B = "Both",
N = "Neither". -/
inductive TV where
  | T
  | F
  | B
  | N
deriving DecidableEq, Repr, Fintype

open TV

/-- Embedding of NEGATION_TABLE (src/App.tsx lines 11-16). -/
def NEGATION_TABLE : TV → TV
  | T => F
  | F => T
  | B => B
  | N => N

/-- Embedding of CONJUNCTION_TABLE (src/App.tsx lines 19-24), row by row as in
the source. -/
def CONJUNCTION_TABLE : TV → TV → TV
  | T, T => T
  | T, F => F
  | T, B => B
  | T, N => N
  | F, T => F
  | F, F => F
  | F, B => F
  | F, N => F
  | B, T => B
  | B, F => F
  | B, B => B
  | B, N => F
  | N, T => N
  | N, F => F
  | N, B => F
  | N, N => N

/-- Embedding of join_info_lattice (src/App.tsx lines 26-32): the guards are
tested in the source's order (v1 == v2, then v1 == N, then v2 == N, else B). -/
def join_info_lattice (v1 v2 : TV) : TV :=
  if v1 = v2 then v1
  else if v1 = N then v2
  else if v2 = N then v1
  else B

/-- Information-lattice order induced by the code's join: v is below w when
joining w on top of v yields w.  This is the order of spec §3 (Neither bottom,
Both top, True and False incomparable), see infoLe_iff. -/
def infoLe (v w : TV) : Prop := join_info_lattice v w = w

instance (v w : TV) : Decidable (infoLe v w) :=
  inferInstanceAs (Decidable (join_info_lattice v w = w))

/-- The order induced by the code's join coincides with the order described in
spec §3: Neither is bottom, Both is top, True and False are incomparable. -/
lemma infoLe_iff : ∀ v w, infoLe v w ↔ (v = w ∨ v = N ∨ w = B) := by
  decide

/-- Embedding of the loop body of solve_liar_fixed_point
(src/App.tsx lines 46-68).  The fuel argument is the number of remaining
iterations of `for i in range(max_iterations)`; the result is the returned
truth value paired with the number of loop iterations executed.  When the
stability check `liar_value == previous_value` fires the function returns
early, exactly as the source does. -/
def liarLoop : Nat → TV → TV × Nat
  | 0, v => (v, 0)
  | Nat.succ k, v =>
    let computed := NEGATION_TABLE v
    let liar_value := join_info_lattice v computed
    if liar_value = v then (liar_value, 1)
    else
      let r := liarLoop k liar_value
      (r.1, r.2 + 1)

/-- Embedding of solve_liar_fixed_point (src/App.tsx lines 34-68):
liar_value starts at N, max_iterations is 5. -/
def solve_liar_fixed_point : TV := (liarLoop 5 N).1

/-- Number of loop iterations solve_liar_fixed_point executes before
returning. -/
def solve_liar_iterations : Nat := (liarLoop 5 N).2

/-- Negation as spec §4.1 words it: True↔False swap; Both↦Both;
Neither↦Neither. -/
def negate_spec : TV → TV
  | T => F
  | F => T
  | B => B
  | N => N

/-- Conjunction as the 16-entry table of spec §4.1 words it: the four
True∧x entries, then False∧x=False for all x, then the Both row, then the
Neither row. -/
def conjunction_spec : TV → TV → TV
  | T, T => T
  | T, F => F
  | T, B => B
  | T, N => N
  | F, _ => F
  | B, T => B
  | B, F => F
  | B, B => B
  | B, N => F
  | N, T => N
  | N, F => F
  | N, B => F
  | N, N => N

/-- Embedding of the confidence projection C(v) displayed by the MathFormula
component (src/App.tsx lines 114-124): a closed interval [min, max]. -/
def C : TV → ℚ × ℚ
  | T => (1, 1)
  | F => (0, 0)
  | B => (0, 1)
  | N => (0, 0)

/-- Confidence projection as spec §4.5 words it: True ↦ [1.0, 1.0];
False ↦ [0.0, 0.0]; Both ↦ [0.0, 1.0]; Neither ↦ [0.0, 0.0]. -/
def C_spec : TV → ℚ × ℚ
  | T => (1, 1)
  | F => (0, 0)
  | B => (0, 1)
  | N => (0, 0)

/-- Claim C1 (code_bug evaluation): the embedded solve_liar_fixed_point
returns Neither, not Both as the claim, the spec scenario and the code's own
comments ("Expected output: ... Both") state.  Starting from N, the first
iteration computes join(N, ¬N) = join(N, N) = N, the stability check fires at
once, and the function returns N. -/
theorem solve_liar_returns_neither : solve_liar_fixed_point = N := by rfl

/-- Claim C2: NEGATION_TABLE and CONJUNCTION_TABLE reproduce exactly the
literal tables of spec §4.1, entry by entry (4 negation entries and all 16
ordered pairs). -/
theorem tables_match_spec :
    (∀ v, NEGATION_TABLE v = negate_spec v) ∧
    (∀ v1 v2, CONJUNCTION_TABLE v1 v2 = conjunction_spec v1 v2) := by
  decide

/-- Claim C3: negate and conjunction are monotone for the information-lattice
order: if v1 ≤ v2 then negate(v1) ≤ negate(v2) and, for every x,
conjunction(v1,x) ≤ conjunction(v2,x). -/
theorem operators_monotone (v1 v2 x : TV) (h : infoLe v1 v2) :
    infoLe (NEGATION_TABLE v1) (NEGATION_TABLE v2) ∧
    infoLe (CONJUNCTION_TABLE v1 x) (CONJUNCTION_TABLE v2 x) := by
  revert h
  revert v1 v2 x
  decide

/-- Witness for operators_monotone at v1 = N, v2 = T, x = B. -/
theorem operators_monotone_case :
    infoLe (NEGATION_TABLE N) (NEGATION_TABLE T) ∧
    infoLe (CONJUNCTION_TABLE N B) (CONJUNCTION_TABLE T B) :=
  operators_monotone N T B (by decide)

/-- Claim C4: join_info_lattice is commutative, idempotent and associative,
Neither is its identity and Both is absorbing. -/
theorem join_lattice_laws :
    (∀ v1 v2, join_info_lattice v1 v2 = join_info_lattice v2 v1) ∧
    (∀ v, join_info_lattice v v = v) ∧
    (∀ v, join_info_lattice N v = v) ∧
    (∀ v, join_info_lattice B v = B) ∧
    (∀ v1 v2 v3,
      join_info_lattice (join_info_lattice v1 v2) v3 =
        join_info_lattice v1 (join_info_lattice v2 v3)) := by
  decide

/-- Claim C5: the confidence projection sends True to [1,1], False to [0,0],
Both to [0,1] and Neither to [0,0], matching spec §4.5 entry by entry, and
consequently Neither and False project to the identical interval. -/
theorem confidence_projection_matches :
    (∀ v, C v = C_spec v) ∧
    C T = (1, 1) ∧ C F = (0, 0) ∧ C B = (0, 1) ∧ C N = (0, 0) ∧
    C N = C F := by
  refine ⟨fun v => by cases v <;> rfl, rfl, rfl, rfl, rfl, rfl⟩

/-- Claim C9 (implicit): CONJUNCTION_TABLE is commutative. -/
theorem conjunction_commutative :
    ∀ v1 v2, CONJUNCTION_TABLE v1 v2 = CONJUNCTION_TABLE v2 v1 := by
  decide

/-- Claim C10 (implicit): solve_liar_fixed_point is a fixed def (it takes no
input, so it always evaluates to the same truth value), and the value v it
returns satisfies the Liar update equation join(v, ¬v) = v. -/
theorem liar_result_is_fixed :
    join_info_lattice solve_liar_fixed_point
        (NEGATION_TABLE solve_liar_fixed_point) =
      solve_liar_fixed_point := by
  rfl

/-- Modelled from the spec: the all-Neither initial Assignment of §4.4
("Initializing: every sentence's value = Neither") for a graph of n
sentences; the generalized solver is not in src/App.tsx, which hardcodes a
single sentence. -/
def botA (n : Nat) : Fin n → TV := fun _ => N

/-- Modelled from the spec: one solver round of §4.4, which is not in
src/App.tsx (only the hardcoded one-sentence demo is).  For every sentence i
the candidate eval a i is computed from the frozen snapshot a of the prior
round, and the new value is join(previous_value, candidate).  The argument
eval abstracts formula evaluation over the SentenceGraph. -/
def stepA {n : Nat} (eval : (Fin n → TV) → Fin n → TV) (a : Fin n → TV) :
    Fin n → TV :=
  fun i => join_info_lattice (a i) (eval a i)

/-- Modelled from the spec: the zero-change test of §4.4 ("A round with zero
changes transitions the machine to Stable"), absent from src/App.tsx in
generalized form. -/
def unchanged {n : Nat} (a b : Fin n → TV) : Bool :=
  (List.finRange n).all fun i => a i == b i

/-- Modelled from the spec: the NonConvergence error of §7, absent from
src/App.tsx. -/
structure NonConvergenceError where

/-- Modelled from the spec: solve(graph, max_iterations) of §6 and §4.4,
absent from src/App.tsx.  Each round consumes one unit of the max_iterations
bound; a round with zero changes returns the stable Assignment; exhausting
the bound surfaces NonConvergenceError to the caller. -/
def solveA {n : Nat} (eval : (Fin n → TV) → Fin n → TV) :
    Nat → (Fin n → TV) → Except NonConvergenceError (Fin n → TV)
  | 0, _ => Except.error ⟨⟩
  | Nat.succ k, a =>
    let a2 := stepA eval a
    if unchanged a2 a then Except.ok a else solveA eval k a2

/-- Height of a truth value in the information lattice
(Neither at 0, True and False at 1, Both at 2). -/
def rank : TV → Nat
  | T => 1
  | F => 1
  | B => 2
  | N => 0

/-- Total lattice height of an Assignment, the solver's progress measure. -/
def measureA {n : Nat} (a : Fin n → TV) : Nat := ∑ i, rank (a i)

lemma le_join : ∀ v w, infoLe v (join_info_lattice v w) := by
  decide

lemma rank_le_of_le : ∀ v w, infoLe v w → rank v ≤ rank w := by
  decide

lemma rank_lt_of_lt : ∀ v w, infoLe v w → v ≠ w → rank v < rank w := by
  decide

lemma rank_le_two : ∀ v, rank v ≤ 2 := by
  decide

lemma measure_lt {n : Nat} (eval : (Fin n → TV) → Fin n → TV)
    (a : Fin n → TV) (h : stepA eval a ≠ a) :
    measureA a < measureA (stepA eval a) := by
  obtain ⟨i, hi⟩ := Function.ne_iff.mp h
  exact Finset.sum_lt_sum
    (fun j _ => rank_le_of_le _ _ (le_join (a j) (eval a j)))
    ⟨i, Finset.mem_univ i,
      rank_lt_of_lt _ _ (le_join (a i) (eval a i)) (Ne.symm hi)⟩

lemma measure_le {n : Nat} (a : Fin n → TV) : measureA a ≤ 2 * n := by
  have h := Finset.sum_le_card_nsmul Finset.univ (fun i => rank (a i)) 2
    (fun i _ => rank_le_two (a i))
  simpa [measureA, Finset.card_univ, smul_eq_mul, mul_comm] using h

lemma iterate_grow {n : Nat} (eval : (Fin n → TV) → Fin n → TV) :
    ∀ k, (∀ j < k,
        stepA eval ((stepA eval)^[j] (botA n)) ≠ (stepA eval)^[j] (botA n)) →
      k ≤ measureA ((stepA eval)^[k] (botA n)) := by
  intro k
  induction k with
  | zero => intro _; exact Nat.zero_le _
  | succ k ih =>
    intro h
    have hk := h k (Nat.lt_succ_self k)
    have h1 := ih (fun j hj => h j (Nat.lt_succ_of_lt hj))
    have h2 := measure_lt eval ((stepA eval)^[k] (botA n)) hk
    rw [Function.iterate_succ_apply']
    omega

lemma fixed_propagates {n : Nat} (eval : (Fin n → TV) → Fin n → TV) (j : Nat)
    (hfix : stepA eval ((stepA eval)^[j] (botA n)) = (stepA eval)^[j] (botA n)) :
    ∀ t, (stepA eval)^[j + t] (botA n) = (stepA eval)^[j] (botA n) := by
  intro t
  induction t with
  | zero => rfl
  | succ t ih =>
    rw [← Nat.add_assoc, Function.iterate_succ_apply', ih, hfix]

/-- Claim C6: for any graph with N sentences the round iteration from the
all-Neither assignment stabilizes within 2N + 1 rounds — after 2N rounds one
further round changes nothing, for every formula-evaluation function — and
the embedded one-sentence Liar program stabilizes within 3 of its 5
iterations (it uses exactly 1). -/
theorem solver_stabilizes_in_bound :
    (∀ (n : Nat) (eval : (Fin n → TV) → Fin n → TV),
      stepA eval ((stepA eval)^[2 * n] (botA n)) =
        (stepA eval)^[2 * n] (botA n)) ∧
    solve_liar_iterations ≤ 3 := by
  constructor
  · intro n eval
    by_contra hne
    have hall : ∀ j < 2 * n + 1,
        stepA eval ((stepA eval)^[j] (botA n)) ≠ (stepA eval)^[j] (botA n) := by
      intro j hj hfix
      have hj2 : j ≤ 2 * n := Nat.lt_succ_iff.mp hj
      have ht := fixed_propagates eval j hfix (2 * n - j)
      rw [Nat.add_sub_cancel' hj2] at ht
      apply hne
      rw [ht]
      exact hfix
    have hgrow := iterate_grow eval (2 * n + 1) hall
    have hle := measure_le ((stepA eval)^[2 * n + 1] (botA n))
    omega
  · decide

lemma unchanged_eq {n : Nat} {a b : Fin n → TV} (h : unchanged a b = true) :
    a = b := by
  funext i
  exact eq_of_beq (List.all_eq_true.mp h i (List.mem_finRange i))

/-- Claim C7: whenever the spec-modelled solve returns an ordinary result, the
result is a stable Assignment (one more round changes nothing); a non-stable
assignment is never presented as a success, and only NonConvergenceError is
returned when the max_iterations bound runs out. -/
theorem solve_ok_is_stable :
    ∀ (n : Nat) (eval : (Fin n → TV) → Fin n → TV) (fuel : Nat)
      (a r : Fin n → TV),
      solveA eval fuel a = Except.ok r → stepA eval r = r := by
  intro n eval fuel
  induction fuel with
  | zero => intro a r h; simp [solveA] at h
  | succ k ih =>
    intro a r h
    by_cases hc : unchanged (stepA eval a) a = true
    · simp only [solveA, hc, if_true] at h
      have hr : a = r := by injection h
      rw [← hr]
      exact unchanged_eq hc
    · simp only [solveA, hc, if_false, Bool.false_eq_true] at h
      exact ih (stepA eval a) r h

/-- Formula evaluation for the one-sentence Liar graph L = ¬L. -/
def liarEval : (Fin 1 → TV) → Fin 1 → TV := fun a _ => NEGATION_TABLE (a 0)

/-- Witness for solve_ok_is_stable on the Liar graph with max_iterations = 5
from the all-Neither assignment. -/
theorem solve_ok_is_stable_case :
    solveA liarEval 5 (botA 1) = Except.ok (botA 1) ∧
    stepA liarEval (botA 1) = botA 1 :=
  ⟨rfl, solve_ok_is_stable 1 liarEval 5 (botA 1) (botA 1) rfl⟩

/-- Claim C8: in every solver iteration the previous value lies below
join(previous_value, computed_value) in the information-lattice order, both
for the embedded update of src/App.tsx line 55 (first conjunct, for any
computed value) and coordinatewise for the generalized round (second
conjunct), so successive values form a monotonically increasing chain. -/
theorem round_update_increases :
    (∀ previous_value computed_value : TV,
      infoLe previous_value (join_info_lattice previous_value computed_value)) ∧
    (∀ (n : Nat) (eval : (Fin n → TV) → Fin n → TV) (a : Fin n → TV)
      (i : Fin n), infoLe (a i) (stepA eval a i)) :=
  ⟨le_join, fun _ eval a i => le_join (a i) (eval a i)⟩
